import Mathlib

/-!
Verification of the parking-violation session logic of `park_ihlal.py`
(`ParkingViolationSystem`): the per-track violation state machine
(`_check_vehicle`), evidence logging (`_log_violation`), session reset
(`clear_system`) and report generation (`generate_report`).

External collaborators (the detector, OpenCV geometry, the UI framework,
pandas/xlsxwriter) are abstracted as parameters, following the boundaries the
code itself draws: the signed point-to-polygon distance computed by
`cv2.pointPolygonTest(poly, pt, True)` is a parameter `dist`, the class-name
table `self.names` is a parameter `names`, the wall clock a string input, and
spreadsheet serialization a fallible function parameter.
-/

/-- A violation log record, as appended by `_log_violation` (lines 175-181):
Vehicle ID, Vehicle Type, Timestamp, Status, Evidence image name. -/
structure ViolationRecord where
  vehicle_id : Nat
  vehicle_type : String
  timestamp : String
  status : String
  evidence : String
deriving DecidableEq

/-- The session-scoped mutable memory: `self.violation_tracker` (dict
track id → consecutive off-road frame count, line 54),
`st.session_state.penalized_ids` (set, line 37), and
`st.session_state.violation_log` (list, line 35). The dict is modelled as an
association list, the set as a duplicate-free insertion list. -/
structure SysState where
  violation_tracker : List (Nat × Nat)
  penalized_ids : List Nat
  violation_log : List ViolationRecord
deriving DecidableEq

/-- Fresh session memory: empty log, empty penalized set, empty tracker
(lines 34-37 and 54 on first run). -/
def init_state : SysState :=
  { violation_tracker := [], penalized_ids := [], violation_log := [] }

/-- Python dict lookup on the association-list model. -/
def dict_lookup : List (Nat × Nat) → Nat → Option Nat
  | [], _ => none
  | (k', v') :: rest, k => if k' = k then some v' else dict_lookup rest k

/-- Python dict assignment `d[k] = v` on the association-list model:
replaces the existing binding or appends a fresh one. -/
def dict_insert : List (Nat × Nat) → Nat → Nat → List (Nat × Nat)
  | [], k, v => [(k, v)]
  | (k', v') :: rest, k, v =>
      if k' = k then (k, v) :: rest else (k', v') :: dict_insert rest k v

/-- Python `set.add` on the list model: inserts the element if absent. -/
def set_add (l : List Nat) (x : Nat) : List Nat :=
  if x ∈ l then l else x :: l

/-- Configuration fixed in `__init__` (lines 26-28): road-membership
tolerance `self.tolerance = 5.0` and `self.violation_threshold = 15`.
(The minimum box height is passed per invocation from the UI slider.) -/
structure SessionConfig where
  tolerance : Rat
  violation_threshold : Nat
deriving DecidableEq

/-- The default configuration of `__init__`. -/
def default_config : SessionConfig :=
  { tolerance := 5, violation_threshold := 15 }

/-- A detection bounding box `x1, y1, x2, y2` in pixel space (line 114). -/
structure Box where
  x1 : Int
  y1 : Int
  x2 : Int
  y2 : Int
deriving DecidableEq

/-- A road polygon: the integer point sequence of one road-class
segmentation mask (line 88). -/
abbrev RoadPolygon : Type := List (Int × Int)

/-- The signed point-to-polygon distance of `cv2.pointPolygonTest(poly, pt,
True)`: positive inside, negative outside. OpenCV computes it in floating
point; it is abstracted here as a rational-valued parameter. -/
abbrev DistFn : Type := RoadPolygon → (Int × Int) → Rat

/-- The road-membership loop of `_check_vehicle` (lines 129-133): scan the
current frame's road polygons and declare the point on-road as soon as one
polygon has signed distance ≥ the tolerance, breaking out of the loop. -/
def on_road_calc (dist : DistFn) (polys : List RoadPolygon) (pt : Int × Int)
    (tol : Rat) : Bool :=
  match polys with
  | [] => false
  | poly :: rest =>
      if tol ≤ dist poly pt then true else on_road_calc dist rest pt tol

/-- Whether the evidence crop `frame[max(0,y1):min(720,y2),
max(0,x1):min(1280,x2)]` of `_log_violation` (line 165) is non-empty
(`crop.size > 0`, line 166): both clamped extents must be positive. -/
def crop_nonempty (b : Box) : Bool :=
  decide (max 0 b.y1 < min 720 b.y2) && decide (max 0 b.x1 < min 1280 b.x2)

/-- `_log_violation` (lines 160-182): unconditionally insert the track id
into the penalized set (line 162); then, only if the crop is non-empty,
append a `ViolationRecord` with the vehicle id, type, timestamp, the status
constant and the evidence image name `{v_type}_{track_id}.jpg`
(lines 166-181). The image write, sidebar preview and toast are I/O with no
effect on session memory. -/
def log_violation (b : Box) (track_id : Nat) (v_type : String) (now : String)
    (s : SysState) : SysState :=
  let s1 := { s with penalized_ids := set_add s.penalized_ids track_id }
  if crop_nonempty b then
    { s1 with
      violation_log := s1.violation_log ++
        [{ vehicle_id := track_id
           vehicle_type := v_type
           timestamp := now
           status := "ILLEGAL PARKING"
           evidence := v_type ++ "_" ++ toString track_id ++ ".jpg" }] }
  else s1

/-- The per-invocation rendering outcome of `_check_vehicle`: skipped by
the size filter (line 117, no render), rendered PENALIZED (lines 124-126),
rendered Clean (lines 140-141), rendered VIOLATION! with evidence capture
fired (lines 147-151), or rendered Analyzing with the remaining frame count
(lines 153-155). -/
inductive CheckOutcome where
  | skipped
  | penalizedMark
  | clean
  | violationFired
  | analyzing (remaining : Nat)
deriving DecidableEq

/-- One invocation's inputs: the bounding box, the tracker-assigned track
id, the detector class id, the minimum-height slider value passed as
`min_h`, the current frame's road polygons, and the current wall-clock
string. -/
structure CheckInput where
  box : Box
  track_id : Nat
  cls_id : Nat
  min_h : Int
  polys : List RoadPolygon
  now : String

/-- `_check_vehicle` (lines 110-158), as a pure transition on session
memory returning the new state and the rendering outcome, in source order:
1. size filter `(y2 - y1) < min_h` → return with no state change (line 117);
2. bottom-center ground point `(int((x1+x2)/2), int(y2))` (line 119) and
   vehicle type `self.names[cls_id]` (line 120);
3. already-penalized check → render PENALIZED, return (lines 123-126);
4. road-membership loop over the frame's polygons (lines 129-133);
5. lazy counter creation at 0 (line 136);
6. on-road → counter := 0, Clean (lines 138-141); else counter += 1
   (line 143), then counter > threshold → VIOLATION and `_log_violation`
   (lines 146-151), else Analyzing(threshold − counter) (lines 152-155). -/
def check_vehicle (dist : DistFn) (names : Nat → String) (cfg : SessionConfig)
    (inp : CheckInput) (s : SysState) : SysState × CheckOutcome :=
  if inp.box.y2 - inp.box.y1 < inp.min_h then (s, .skipped)
  else
    let center_x : Int := (inp.box.x1 + inp.box.x2).tdiv 2
    let center_y : Int := inp.box.y2
    let v_type := names inp.cls_id
    if inp.track_id ∈ s.penalized_ids then (s, .penalizedMark)
    else
      let on_road := on_road_calc dist inp.polys (center_x, center_y) cfg.tolerance
      let tr0 :=
        if (dict_lookup s.violation_tracker inp.track_id).isNone then
          dict_insert s.violation_tracker inp.track_id 0
        else s.violation_tracker
      if on_road then
        ({ s with violation_tracker := dict_insert tr0 inp.track_id 0 }, .clean)
      else
        let c := (dict_lookup tr0 inp.track_id).getD 0 + 1
        let tr1 := dict_insert tr0 inp.track_id c
        if cfg.violation_threshold < c then
          (log_violation inp.box inp.track_id v_type inp.now
            { s with violation_tracker := tr1 }, .violationFired)
        else
          ({ s with violation_tracker := tr1 },
           .analyzing (cfg.violation_threshold - c))

/-- A sequence of `_check_vehicle` invocations, as issued by the frame loop
of `process_video` (lines 96-103), folded over session memory. -/
def run_checks (dist : DistFn) (names : Nat → String) (cfg : SessionConfig) :
    List CheckInput → SysState → SysState
  | [], s => s
  | inp :: rest, s =>
      run_checks dist names cfg rest (check_vehicle dist names cfg inp s).1

/-- The outcome trace of a sequence of `_check_vehicle` invocations. -/
def run_outcomes (dist : DistFn) (names : Nat → String) (cfg : SessionConfig) :
    List CheckInput → SysState → List CheckOutcome
  | [], _ => []
  | inp :: rest, s =>
      (check_vehicle dist names cfg inp s).2 ::
        run_outcomes dist names cfg rest (check_vehicle dist names cfg inp s).1

/-- `clear_system` (lines 56-60): resets `st.session_state.violation_log`
and `st.session_state.penalized_ids`, then calls `st.rerun()`, which
re-executes the script; the rerun reconstructs the
`ParkingViolationSystem` instance (line 231), whose constructor sets
`self.violation_tracker = {}` afresh (line 54) while leaving the
already-present session-state keys untouched (lines 34-37). -/
def clear_system (s : SysState) : SysState :=
  let cleared := { s with violation_log := [], penalized_ids := [] }
  { cleared with violation_tracker := [] }

/-- Outcome of `generate_report`: warning with an early return when the log
is empty (lines 186-188), success with the row count and a download button
(lines 216-218), or a user-visible Excel error message (lines 220-221). -/
inductive ReportOutcome where
  | warningNoRecords
  | success (rowCount : Nat)
  | excelError (msg : String)
deriving DecidableEq

/-- `generate_report` (lines 184-221): if the violation log is empty, warn
and return without producing a file; otherwise serialize the log to a
spreadsheet inside a try/except, surfacing any exception as a user-visible
error. The pandas/xlsxwriter serialization with image embedding (lines
197-213) is an external library call, abstracted as the fallible
`serialize` parameter; the function is total, so no exception propagates. -/
def generate_report (serialize : List ViolationRecord → Except String Unit)
    (log : List ViolationRecord) : ReportOutcome :=
  if log.isEmpty then .warningNoRecords
  else
    match serialize log with
    | .ok _ => .success log.length
    | .error e => .excelError e

/-- Number of log records carrying a given track id. -/
def count_records (log : List ViolationRecord) (id : Nat) : Nat :=
  (log.filter (fun r => r.vehicle_id = id)).length

/-! ### Helper lemmas on the dict and set models -/

theorem dict_lookup_insert_self (d : List (Nat × Nat)) (k v : Nat) :
    dict_lookup (dict_insert d k v) k = some v := by
  induction d with
  | nil => simp [dict_insert, dict_lookup]
  | cons hd tl ih =>
      obtain ⟨k', v'⟩ := hd
      by_cases h : k' = k
      · simp [dict_insert, dict_lookup, h]
      · simp [dict_insert, dict_lookup, h, ih]

theorem dict_lookup_insert_ne (d : List (Nat × Nat)) (k v id : Nat)
    (h : id ≠ k) :
    dict_lookup (dict_insert d k v) id = dict_lookup d id := by
  have hk2 : ¬ k = id := fun hh => h hh.symm
  induction d with
  | nil => simp [dict_insert, dict_lookup, hk2]
  | cons hd tl ih =>
      obtain ⟨k', v'⟩ := hd
      by_cases hk : k' = k
      · subst hk
        simp [dict_insert, dict_lookup, hk2]
      · by_cases hid : k' = id
        · simp [dict_insert, dict_lookup, hk, hid, hk2, h]
        · simp [dict_insert, dict_lookup, hk, hid, ih]

theorem mem_set_add (l : List Nat) (x a : Nat) :
    a ∈ set_add l x ↔ a ∈ l ∨ a = x := by
  unfold set_add
  split
  · constructor
    · exact Or.inl
    · rintro (h | h)
      · exact h
      · subst h; assumption
  · simp [or_comm]

theorem count_records_append (l : List ViolationRecord)
    (r : ViolationRecord) (id : Nat) :
    count_records (l ++ [r]) id =
      count_records l id + if r.vehicle_id = id then 1 else 0 := by
  simp only [count_records, List.filter_append]
  split <;> simp_all

/-! ### Step-level characterization lemmas for `check_vehicle` -/

theorem check_pen_log (dist : DistFn) (names : Nat → String)
    (cfg : SessionConfig) (inp : CheckInput) (s : SysState) :
    ((check_vehicle dist names cfg inp s).1.penalized_ids = s.penalized_ids ∧
     (check_vehicle dist names cfg inp s).1.violation_log = s.violation_log) ∨
    (inp.track_id ∉ s.penalized_ids ∧
     (check_vehicle dist names cfg inp s).1.penalized_ids =
       set_add s.penalized_ids inp.track_id ∧
     ((crop_nonempty inp.box = true ∧
        ∃ r : ViolationRecord, r.vehicle_id = inp.track_id ∧
          (check_vehicle dist names cfg inp s).1.violation_log =
            s.violation_log ++ [r]) ∨
      (crop_nonempty inp.box = false ∧
        (check_vehicle dist names cfg inp s).1.violation_log =
          s.violation_log))) := by
  unfold check_vehicle log_violation
  dsimp only
  repeat' split
  all_goals first
    | exact Or.inl ⟨rfl, rfl⟩
    | refine Or.inr ⟨by assumption, rfl, ?_⟩
  all_goals first
    | exact Or.inl ⟨by assumption,
        ⟨{ vehicle_id := inp.track_id, vehicle_type := names inp.cls_id,
           timestamp := inp.now, status := "ILLEGAL PARKING",
           evidence := names inp.cls_id ++ "_" ++ toString inp.track_id ++ ".jpg" },
         rfl, rfl⟩⟩
    | exact Or.inr ⟨by simp_all, rfl⟩

theorem check_tracker_of_penalized (dist : DistFn) (names : Nat → String)
    (cfg : SessionConfig) (inp : CheckInput) (s : SysState) (id : Nat)
    (h : id ∈ s.penalized_ids) :
    dict_lookup (check_vehicle dist names cfg inp s).1.violation_tracker id =
      dict_lookup s.violation_tracker id ∧
    id ∈ (check_vehicle dist names cfg inp s).1.penalized_ids := by
  by_cases ht : inp.track_id = id
  · subst ht
    unfold check_vehicle
    dsimp only
    split
    · exact ⟨rfl, h⟩
    · exact ⟨rfl, h⟩
  · have hne : id ≠ inp.track_id := fun hh => ht hh.symm
    have hlem : ∀ d v, dict_lookup (dict_insert d inp.track_id v) id =
        dict_lookup d id := fun d v => dict_lookup_insert_ne d inp.track_id v id hne
    unfold check_vehicle log_violation
    dsimp only
    repeat' split
    all_goals simp_all [hlem, mem_set_add]

theorem check_counter_onroad (dist : DistFn) (names : Nat → String)
    (cfg : SessionConfig) (inp : CheckInput) (s : SysState)
    (hh : ¬ (inp.box.y2 - inp.box.y1 < inp.min_h))
    (hp : inp.track_id ∉ s.penalized_ids)
    (hr : on_road_calc dist inp.polys
      ((inp.box.x1 + inp.box.x2).tdiv 2, inp.box.y2) cfg.tolerance = true) :
    dict_lookup (check_vehicle dist names cfg inp s).1.violation_tracker
      inp.track_id = some 0 := by
  unfold check_vehicle
  dsimp only
  rw [if_neg hh, if_neg hp, if_pos hr]
  exact dict_lookup_insert_self _ _ _

theorem check_counter_offroad (dist : DistFn) (names : Nat → String)
    (cfg : SessionConfig) (inp : CheckInput) (s : SysState)
    (hh : ¬ (inp.box.y2 - inp.box.y1 < inp.min_h))
    (hp : inp.track_id ∉ s.penalized_ids)
    (hr : on_road_calc dist inp.polys
      ((inp.box.x1 + inp.box.x2).tdiv 2, inp.box.y2) cfg.tolerance = false) :
    dict_lookup (check_vehicle dist names cfg inp s).1.violation_tracker
      inp.track_id =
      some ((dict_lookup s.violation_tracker inp.track_id).getD 0 + 1) := by
  unfold check_vehicle log_violation
  dsimp only
  rw [if_neg hh, if_neg hp, if_neg (by simp [hr])]
  repeat' split
  all_goals simp_all [dict_lookup_insert_self]

theorem check_outcome_offroad (dist : DistFn) (names : Nat → String)
    (cfg : SessionConfig) (inp : CheckInput) (s : SysState)
    (hh : ¬ (inp.box.y2 - inp.box.y1 < inp.min_h))
    (hp : inp.track_id ∉ s.penalized_ids)
    (hr : on_road_calc dist inp.polys
      ((inp.box.x1 + inp.box.x2).tdiv 2, inp.box.y2) cfg.tolerance = false) :
    (check_vehicle dist names cfg inp s).2 = CheckOutcome.violationFired ↔
      cfg.violation_threshold <
        (dict_lookup s.violation_tracker inp.track_id).getD 0 + 1 := by
  unfold check_vehicle log_violation
  dsimp only
  rw [if_neg hh, if_neg hp, if_neg (by simp [hr])]
  repeat' split
  all_goals simp_all [dict_lookup_insert_self]

theorem check_fired_counter (dist : DistFn) (names : Nat → String)
    (cfg : SessionConfig) (inp : CheckInput) (s : SysState)
    (hb : (dict_lookup s.violation_tracker inp.track_id).getD 0 ≤
      cfg.violation_threshold) :
    (check_vehicle dist names cfg inp s).2 = CheckOutcome.violationFired →
    dict_lookup (check_vehicle dist names cfg inp s).1.violation_tracker
      inp.track_id = some (cfg.violation_threshold + 1) := by
  unfold check_vehicle log_violation
  dsimp only
  repeat' split
  all_goals intro hf
  all_goals simp_all [dict_lookup_insert_self]
  all_goals omega

/-- Invariant-preservation principle for sequences of `_check_vehicle`
invocations, with a per-input side condition. -/
theorem run_checks_preserve (dist : DistFn) (names : Nat → String)
    (cfg : SessionConfig) (P : SysState → Prop) (Q : CheckInput → Prop)
    (hstep : ∀ inp s, Q inp → P s → P (check_vehicle dist names cfg inp s).1) :
    ∀ inps s, (∀ i ∈ inps, Q i) → P s → P (run_checks dist names cfg inps s)
  | [], _, _, hs => hs
  | inp :: rest, s, hq, hs =>
      run_checks_preserve dist names cfg P Q hstep rest _
        (fun i hi => hq i (List.mem_cons_of_mem _ hi))
        (hstep inp s (hq inp (List.mem_cons_self _ _)) hs)

/-! ### Concrete fixtures for witnesses and counterexamples -/

/-- A signed-distance sample where every point is far outside every
polygon. -/
def dist_far : DistFn := fun _ _ => -100

/-- A signed-distance sample where every point is deep inside every
polygon. -/
def dist_in : DistFn := fun _ _ => 100

/-- A signed-distance sample where every point is 3 px outside every
polygon: negative signed distance, smaller than the default tolerance in
magnitude. -/
def dist_near : DistFn := fun _ _ => -3

/-- A sample road polygon. -/
def demo_poly : RoadPolygon := [(0, 0), (100, 0), (100, 100), (0, 100)]

/-- A sample class-name table. -/
def names_demo : Nat → String := fun _ => "car"

/-- An off-road, filter-passing detection of track 7 with an in-frame
bounding box (no road polygons in the frame). -/
def inp_good : CheckInput :=
  { box := { x1 := 100, y1 := 100, x2 := 200, y2 := 200 }, track_id := 7,
    cls_id := 2, min_h := 50, polys := [], now := "2026-10-12 00:00:00" }

/-- The same track with a box lying entirely to the right of the
1280-pixel frame: the evidence crop is empty. -/
def inp_offscreen : CheckInput :=
  { box := { x1 := 1300, y1 := 100, x2 := 1400, y2 := 200 }, track_id := 7,
    cls_id := 2, min_h := 50, polys := [], now := "2026-10-12 00:00:00" }

/-- Track 7 with a 40-pixel-high box against a 50-pixel minimum filter. -/
def inp_small : CheckInput :=
  { box := { x1 := 100, y1 := 160, x2 := 200, y2 := 200 }, track_id := 7,
    cls_id := 2, min_h := 50, polys := [], now := "2026-10-12 00:00:00" }

/-- Track 7 on a frame whose single road polygon covers it. -/
def inp_onroad : CheckInput :=
  { box := { x1 := 100, y1 := 100, x2 := 200, y2 := 200 }, track_id := 7,
    cls_id := 2, min_h := 50,
    polys := [[(0, 0), (1280, 0), (1280, 720), (0, 720)]],
    now := "2026-10-12 00:00:00" }

/-- A session state in which track 7 has been off-road for 5 consecutive
frames. -/
def state_counter5 : SysState :=
  { violation_tracker := [(7, 5)], penalized_ids := [], violation_log := [] }

/-- The session state reached from a fresh session by 16 consecutive
off-road, filter-passing frames of track 7: the track is penalized. -/
def state_penalized : SysState :=
  run_checks dist_far names_demo default_config
    (List.replicate 16 inp_good) init_state

/-! ### Claim theorems -/

/-- C2 counterexample: the claim's outward-slack clause is false. With the
configured tolerance +5, a point 3 px outside a road polygon — signed
distance −3, so outside the edge but within the tolerance in magnitude —
is NOT counted on-road: line 131 demands a signed distance ≥ +5, i.e. a
point at least 5 px inside the polygon. -/
theorem outside_point_within_tolerance_offroad :
    dist_near demo_poly (50, 50) = -3 ∧
    dist_near demo_poly (50, 50) < 0 ∧
    -(dist_near demo_poly (50, 50)) ≤ default_config.tolerance ∧
    on_road_calc dist_near [demo_poly] (50, 50) default_config.tolerance
      = false := by
  decide

/-- C2 amended: the road-membership test returns on-road for a point
exactly when the point's signed distance (positive inside) to at least one
road polygon of the current frame is ≥ the configured tolerance; since the
tolerance is positive (+5.0), a point on or outside every polygon edge —
however slightly — never counts as on-road (the test requires the point to
be at least tolerance-deep inside some polygon, the opposite of outward
slack); and when the current frame's set of road polygons is empty, the
test returns off-road for every point. -/
theorem on_road_iff_tolerance_deep_inside (dist : DistFn)
    (polys : List RoadPolygon) (pt : Int × Int) (tol : Rat) :
    (on_road_calc dist polys pt tol = true ↔
      ∃ poly ∈ polys, tol ≤ dist poly pt) ∧
    on_road_calc dist [] pt tol = false ∧
    (0 < tol → (∀ poly ∈ polys, dist poly pt ≤ 0) →
      on_road_calc dist polys pt tol = false) := by
  have hiff : on_road_calc dist polys pt tol = true ↔
      ∃ poly ∈ polys, tol ≤ dist poly pt := by
    induction polys with
    | nil => simp [on_road_calc]
    | cons p ps ih =>
        by_cases hd : tol ≤ dist p pt
        · simp [on_road_calc, hd]
        · simp [on_road_calc, hd, ih]
  refine ⟨hiff, rfl, fun htol hout => ?_⟩
  cases hcalc : on_road_calc dist polys pt tol with
  | false => rfl
  | true =>
      obtain ⟨poly, hmem, hge⟩ := hiff.mp hcalc
      exact absurd (hge.trans (hout poly hmem)) (not_le.mpr htol)

/-- Witness for the amended C2: with every signed distance −3 and the
default tolerance 5, the tolerance-deep-inside requirement declares the
point off-road. -/
theorem on_road_tolerance_witness :
    (0 : Rat) < default_config.tolerance ∧
    (∀ poly ∈ [demo_poly], dist_near poly (50, 50) ≤ 0) ∧
    on_road_calc dist_near [demo_poly] (50, 50) default_config.tolerance
      = false :=
  ⟨by decide, by decide,
   (on_road_iff_tolerance_deep_inside dist_near [demo_poly] (50, 50)
      default_config.tolerance).2.2 (by decide) (by decide)⟩

/-- C3: after the user reset action runs (which also reruns the script,
reconstructing the system instance), the per-track counter mapping and the
penalized set are both empty, whatever they held before. -/
theorem clear_system_resets_tracker_and_penalized (s : SysState) :
    (clear_system s).violation_tracker = [] ∧
    (clear_system s).penalized_ids = [] :=
  ⟨rfl, rfl⟩

/-- C8: a detection whose box height is strictly below the minimum-height
filter leaves the whole session state (tracker, penalized set and log)
unchanged and produces no render. -/
theorem size_filter_skips_without_mutation (dist : DistFn)
    (names : Nat → String) (cfg : SessionConfig) (inp : CheckInput)
    (s : SysState) (h : inp.box.y2 - inp.box.y1 < inp.min_h) :
    check_vehicle dist names cfg inp s = (s, CheckOutcome.skipped) := by
  unfold check_vehicle
  rw [if_pos h]

/-- Witness for C8: a 40-pixel-high box of track 7 under the default
50-pixel minimum is skipped with the state returned untouched. -/
theorem size_filter_skips_witness :
    check_vehicle dist_far names_demo default_config inp_small init_state =
      (init_state, CheckOutcome.skipped) :=
  size_filter_skips_without_mutation dist_far names_demo default_config
    inp_small init_state (by decide)

/-- C4 counterexample: in the state reached by penalizing track 7, a
40-pixel-high detection of track 7 under the 50-pixel minimum is skipped by
the size filter instead of being rendered PENALIZED: the claim's ordering
(penalized branch before the height filter) is false on the code. -/
theorem penalized_short_box_not_rendered :
    7 ∈ state_penalized.penalized_ids ∧
    (check_vehicle dist_far names_demo default_config inp_small
        state_penalized).2 ≠ CheckOutcome.penalizedMark := by
  decide

/-- C4 amended: `_check_vehicle` applies the minimum-height filter first;
for a track in the penalized set, the PENALIZED branch (no state change) is
taken exactly when the box passes the height filter, and the detection is
skipped entirely otherwise. -/
theorem size_filter_precedes_penalized_branch (dist : DistFn)
    (names : Nat → String) (cfg : SessionConfig) (inp : CheckInput)
    (s : SysState) (hp : inp.track_id ∈ s.penalized_ids) :
    check_vehicle dist names cfg inp s =
      if inp.box.y2 - inp.box.y1 < inp.min_h then (s, CheckOutcome.skipped)
      else (s, CheckOutcome.penalizedMark) := by
  unfold check_vehicle
  dsimp only
  split
  · rfl
  · simp [hp]

/-- Witness for the amended C4: penalized track 7 with a filter-passing box
is rendered PENALIZED with no state change. -/
theorem size_filter_precedes_penalized_witness :
    7 ∈ state_penalized.penalized_ids ∧
    check_vehicle dist_far names_demo default_config inp_offscreen
        state_penalized =
      (if inp_offscreen.box.y2 - inp_offscreen.box.y1 < inp_offscreen.min_h
       then (state_penalized, CheckOutcome.skipped)
       else (state_penalized, CheckOutcome.penalizedMark)) :=
  ⟨by decide,
   size_filter_precedes_penalized_branch dist_far names_demo default_config
     inp_offscreen state_penalized (by decide)⟩

/-- C5: for a non-penalized track passing the size filter, an on-road frame
sets its counter to exactly 0 regardless of the prior value, and an
off-road frame increments its counter by exactly 1 (a missing entry counts
as 0, per the lazy initialization). -/
theorem counter_reset_and_increment (dist : DistFn) (names : Nat → String)
    (cfg : SessionConfig) (inp : CheckInput) (s : SysState)
    (hh : ¬ (inp.box.y2 - inp.box.y1 < inp.min_h))
    (hp : inp.track_id ∉ s.penalized_ids) :
    (on_road_calc dist inp.polys ((inp.box.x1 + inp.box.x2).tdiv 2, inp.box.y2)
        cfg.tolerance = true →
      dict_lookup (check_vehicle dist names cfg inp s).1.violation_tracker
        inp.track_id = some 0) ∧
    (on_road_calc dist inp.polys ((inp.box.x1 + inp.box.x2).tdiv 2, inp.box.y2)
        cfg.tolerance = false →
      dict_lookup (check_vehicle dist names cfg inp s).1.violation_tracker
        inp.track_id =
        some ((dict_lookup s.violation_tracker inp.track_id).getD 0 + 1)) :=
  ⟨fun hr => check_counter_onroad dist names cfg inp s hh hp hr,
   fun hr => check_counter_offroad dist names cfg inp s hh hp hr⟩

/-- Witness for C5: with track 7 at counter 5, an on-road frame resets the
counter to 0 and an off-road frame advances it to 6. -/
theorem counter_reset_and_increment_witness :
    dict_lookup (check_vehicle dist_in names_demo default_config inp_onroad
        state_counter5).1.violation_tracker 7 = some 0 ∧
    dict_lookup (check_vehicle dist_far names_demo default_config inp_good
        state_counter5).1.violation_tracker 7 = some 6 :=
  ⟨(counter_reset_and_increment dist_in names_demo default_config inp_onroad
      state_counter5 (by decide) (by decide)).1 (by decide),
   (counter_reset_and_increment dist_far names_demo default_config inp_good
      state_counter5 (by decide) (by decide)).2 (by decide)⟩

/-- Whether an outcome is the VIOLATION render that fires evidence
capture. -/
def fires_capture : CheckOutcome → Bool
  | .violationFired => true
  | _ => false

/-- A session state in which track 7 sits exactly at the default violation
threshold. -/
def state_counter15 : SysState :=
  { violation_tracker := [(7, 15)], penalized_ids := [], violation_log := [] }

/-- C6: with threshold 15, a track off-road (and filter-passing) on 16
consecutive frames from a fresh session fires evidence capture exactly on
the 16th frame and on no earlier one; in general, an off-road frame of a
non-penalized, filter-passing track fires evidence capture iff the
incremented counter strictly exceeds the threshold. -/
theorem violation_fires_exactly_when_exceeding :
    ((run_outcomes dist_far names_demo default_config
        (List.replicate 16 inp_good) init_state).map fires_capture =
      List.replicate 15 false ++ [true]) ∧
    ∀ (dist : DistFn) (names : Nat → String) (cfg : SessionConfig)
      (inp : CheckInput) (s : SysState),
      ¬ (inp.box.y2 - inp.box.y1 < inp.min_h) →
      inp.track_id ∉ s.penalized_ids →
      on_road_calc dist inp.polys
        ((inp.box.x1 + inp.box.x2).tdiv 2, inp.box.y2) cfg.tolerance = false →
      ((check_vehicle dist names cfg inp s).2 = CheckOutcome.violationFired ↔
        cfg.violation_threshold <
          (dict_lookup s.violation_tracker inp.track_id).getD 0 + 1) :=
  ⟨by decide, fun dist names cfg inp s hh hp hr =>
    check_outcome_offroad dist names cfg inp s hh hp hr⟩

/-- Witness for C6: at counter 15 an off-road frame of track 7 fires iff
15 < 16. -/
theorem violation_fires_witness :
    (check_vehicle dist_far names_demo default_config inp_good
        state_counter15).2 = CheckOutcome.violationFired ↔
      default_config.violation_threshold <
        (dict_lookup state_counter15.violation_tracker 7).getD 0 + 1 :=
  violation_fires_exactly_when_exceeding.2 dist_far names_demo default_config
    inp_good state_counter15 (by decide) (by decide) (by decide)

/-- C7: starting from a fresh session, any sequence of per-vehicle checks
appends at most one violation record per track id to the session log. -/
theorem at_most_one_record_per_track (dist : DistFn) (names : Nat → String)
    (cfg : SessionConfig) (inps : List CheckInput) (id : Nat) :
    count_records
      (run_checks dist names cfg inps init_state).violation_log id ≤ 1 := by
  have key := run_checks_preserve dist names cfg
    (fun t => ∀ id2, count_records t.violation_log id2 ≤
      (if id2 ∈ t.penalized_ids then 1 else 0))
    (fun _ => True)
    (fun inp s _ hs id2 => by
      rcases check_pen_log dist names cfg inp s with
        ⟨hpen, hlog⟩ | ⟨hnp, hpen, hcase⟩
      · rw [hpen, hlog]
        exact hs id2
      · have hs2 := hs id2
        have hsid := hs inp.track_id
        rw [if_neg hnp] at hsid
        rcases hcase with ⟨_, r, hr, hlog⟩ | ⟨_, hlog⟩
        · rw [hpen, hlog, count_records_append, hr]
          by_cases hid : id2 = inp.track_id
          · subst hid
            rw [if_pos rfl, if_pos ((mem_set_add _ _ _).mpr (Or.inr rfl))]
            omega
          · rw [if_neg (fun hh => hid hh.symm)]
            have hmem : (id2 ∈ set_add s.penalized_ids inp.track_id) ↔
                id2 ∈ s.penalized_ids := by
              rw [mem_set_add]
              exact or_iff_left hid
            by_cases hin : id2 ∈ s.penalized_ids
            · rw [if_pos (hmem.mpr hin)]
              rw [if_pos hin] at hs2
              omega
            · rw [if_neg (fun hh => hin (hmem.mp hh))]
              rw [if_neg hin] at hs2
              omega
        · rw [hpen, hlog]
          by_cases hin : id2 ∈ s.penalized_ids
          · rw [if_pos ((mem_set_add _ _ _).mpr (Or.inl hin))]
            rw [if_pos hin] at hs2
            omega
          · rw [if_neg hin] at hs2
            split <;> omega)
    inps init_state (fun _ _ => trivial)
    (fun id2 => by simp [init_state, count_records])
  have := key id
  split at this <;> omega

/-- C10: once a track id is in the penalized set, no later sequence of
per-vehicle checks removes it or changes its counter entry — in particular
the counter is never reset to 0 even on on-road frames; and at the
penalization transition itself the counter lands on exactly threshold + 1
(its prior value having been at most the threshold, as consecutive
increments from 0 guarantee). -/
theorem penalized_track_counter_frozen (dist : DistFn) (names : Nat → String)
    (cfg : SessionConfig) (inps : List CheckInput) (s : SysState) (id : Nat)
    (h : id ∈ s.penalized_ids) :
    (id ∈ (run_checks dist names cfg inps s).penalized_ids ∧
     dict_lookup (run_checks dist names cfg inps s).violation_tracker id =
       dict_lookup s.violation_tracker id) ∧
    (∀ (inp : CheckInput) (t : SysState),
      (dict_lookup t.violation_tracker inp.track_id).getD 0 ≤
        cfg.violation_threshold →
      (check_vehicle dist names cfg inp t).2 = CheckOutcome.violationFired →
      dict_lookup (check_vehicle dist names cfg inp t).1.violation_tracker
        inp.track_id = some (cfg.violation_threshold + 1)) := by
  constructor
  · exact run_checks_preserve dist names cfg
      (fun t => id ∈ t.penalized_ids ∧
        dict_lookup t.violation_tracker id = dict_lookup s.violation_tracker id)
      (fun _ => True)
      (fun inp t _ ht => by
        obtain ⟨hmem, hlk⟩ := ht
        obtain ⟨hlk2, hmem2⟩ :=
          check_tracker_of_penalized dist names cfg inp t id hmem
        exact ⟨hmem2, hlk2.trans hlk⟩)
      inps s (fun _ _ => trivial) ⟨h, rfl⟩
  · exact fun inp t hb hf => check_fired_counter dist names cfg inp t hb hf

/-- Witness for C10: with track 7 penalized, an on-road frame of track 7
leaves both its membership and its counter entry (16 = threshold + 1)
untouched. -/
theorem penalized_track_counter_frozen_witness :
    7 ∈ state_penalized.penalized_ids ∧
    (7 ∈ (run_checks dist_in names_demo default_config [inp_onroad]
        state_penalized).penalized_ids ∧
     dict_lookup (run_checks dist_in names_demo default_config [inp_onroad]
        state_penalized).violation_tracker 7 =
       dict_lookup state_penalized.violation_tracker 7) :=
  ⟨by decide,
   (penalized_track_counter_frozen dist_in names_demo default_config
      [inp_onroad] state_penalized 7 (by decide)).1⟩

/-- C1 counterexample: after 16 consecutive off-road frames of track 7
whose bounding box lies entirely outside the 1280-pixel frame (so the
evidence crop is empty), the id is in the penalized set but the session log
holds no record for it, refuting the claimed iff. -/
theorem record_iff_penalized_counterexample :
    ¬ ((∃ r ∈ (run_checks dist_far names_demo default_config
          (List.replicate 16 inp_offscreen) init_state).violation_log,
        r.vehicle_id = 7) ↔
      7 ∈ (run_checks dist_far names_demo default_config
          (List.replicate 16 inp_offscreen) init_state).penalized_ids) := by
  decide

/-- C1 amended: in any session run from a fresh state, a violation record
for a track id implies the id is in the penalized set (and each happens at
most once, per the other invariants); the full iff holds on every run in
which each processed detection has a non-empty evidence crop. When a
violation fires on an empty crop, the id enters the penalized set without a
record being appended. -/
theorem record_iff_penalized_amended (dist : DistFn) (names : Nat → String)
    (cfg : SessionConfig) (inps : List CheckInput) :
    (∀ id, (∃ r ∈ (run_checks dist names cfg inps init_state).violation_log,
        r.vehicle_id = id) →
      id ∈ (run_checks dist names cfg inps init_state).penalized_ids) ∧
    ((∀ i ∈ inps, crop_nonempty i.box = true) →
      ∀ id, (id ∈ (run_checks dist names cfg inps init_state).penalized_ids ↔
        ∃ r ∈ (run_checks dist names cfg inps init_state).violation_log,
          r.vehicle_id = id)) := by
  constructor
  · exact run_checks_preserve dist names cfg
      (fun t => ∀ id, (∃ r ∈ t.violation_log, r.vehicle_id = id) →
        id ∈ t.penalized_ids)
      (fun _ => True)
      (fun inp s _ hs id hex => by
        rcases check_pen_log dist names cfg inp s with
          ⟨hpen, hlog⟩ | ⟨hnp, hpen, hcase⟩
        · rw [hpen]
          rw [hlog] at hex
          exact hs id hex
        · rw [hpen, mem_set_add]
          rcases hcase with ⟨_, r, hr, hlog⟩ | ⟨_, hlog⟩
          · rw [hlog] at hex
            obtain ⟨r2, hmem, hid⟩ := hex
            rcases List.mem_append.mp hmem with hmem2 | hmem2
            · exact Or.inl (hs id ⟨r2, hmem2, hid⟩)
            · rw [List.mem_singleton] at hmem2
              subst hmem2
              exact Or.inr (hid ▸ hr.symm).symm
          · rw [hlog] at hex
            exact Or.inl (hs id hex))
      inps init_state (fun _ _ => trivial)
      (fun id hex => by
        obtain ⟨r, hmem, _⟩ := hex
        simp [init_state] at hmem)
  · intro hq
    exact run_checks_preserve dist names cfg
      (fun t => ∀ id, id ∈ t.penalized_ids ↔
        ∃ r ∈ t.violation_log, r.vehicle_id = id)
      (fun i => crop_nonempty i.box = true)
      (fun inp s hqi hs id => by
        rcases check_pen_log dist names cfg inp s with
          ⟨hpen, hlog⟩ | ⟨hnp, hpen, hcase⟩
        · rw [hpen, hlog]
          exact hs id
        · rcases hcase with ⟨_, r, hr, hlog⟩ | ⟨hc, _⟩
          · rw [hpen, hlog, mem_set_add]
            constructor
            · rintro (hin | hin)
              · obtain ⟨r2, hmem, hid⟩ := (hs id).mp hin
                exact ⟨r2, List.mem_append.mpr (Or.inl hmem), hid⟩
              · exact ⟨r, List.mem_append.mpr (Or.inr (List.mem_singleton.mpr rfl)),
                  hr.trans hin.symm⟩
            · rintro ⟨r2, hmem, hid⟩
              rcases List.mem_append.mp hmem with hmem2 | hmem2
              · exact Or.inl ((hs id).mpr ⟨r2, hmem2, hid⟩)
              · rw [List.mem_singleton] at hmem2
                subst hmem2
                exact Or.inr (hid ▸ hr.symm).symm
          · rw [hqi] at hc
            exact absurd hc (by simp))
      inps init_state hq
      (fun id => by simp [init_state])

/-- Witness for the amended C1: a run of 16 in-frame off-road frames of
track 7 keeps the penalized set and the record ids in step. -/
theorem record_iff_penalized_amended_witness :
    (∀ i ∈ List.replicate 16 inp_good, crop_nonempty i.box = true) ∧
    (7 ∈ (run_checks dist_far names_demo default_config
        (List.replicate 16 inp_good) init_state).penalized_ids ↔
      ∃ r ∈ (run_checks dist_far names_demo default_config
          (List.replicate 16 inp_good) init_state).violation_log,
        r.vehicle_id = 7) :=
  ⟨by decide,
   (record_iff_penalized_amended dist_far names_demo default_config
      (List.replicate 16 inp_good)).2 (by decide) 7⟩

/-- A serializer sample that always raises. -/
def serialize_fail : List ViolationRecord → Except String Unit :=
  fun _ => Except.error "disk full"

/-- A sample violation record. -/
def demo_record : ViolationRecord :=
  { vehicle_id := 7, vehicle_type := "car", timestamp := "2026-10-12 00:00:00",
    status := "ILLEGAL PARKING", evidence := "car_7.jpg" }

/-- C9: report generation on an empty log returns the warning outcome —
no spreadsheet is built, no download is offered and nothing propagates —
for every serializer; on a non-empty log, a serializer exception is caught
and surfaced as the user-visible Excel-error outcome. -/
theorem report_empty_warns_and_errors_surface :
    (∀ serialize : List ViolationRecord → Except String Unit,
      generate_report serialize [] = ReportOutcome.warningNoRecords) ∧
    (∀ (serialize : List ViolationRecord → Except String Unit)
       (log : List ViolationRecord) (msg : String),
      log ≠ [] → serialize log = Except.error msg →
      generate_report serialize log = ReportOutcome.excelError msg) := by
  constructor
  · intro serialize
    rfl
  · intro serialize log msg hne hser
    match log, hne with
    | a :: l, _ => simp [generate_report, hser]

/-- Witness for C9: the failing serializer yields the warning outcome on an
empty log and the surfaced error on a one-record log. -/
theorem report_outcomes_witness :
    generate_report serialize_fail [] = ReportOutcome.warningNoRecords ∧
    generate_report serialize_fail [demo_record] =
      ReportOutcome.excelError "disk full" :=
  ⟨report_empty_warns_and_errors_surface.1 serialize_fail,
   report_empty_warns_and_errors_surface.2 serialize_fail [demo_record]
     "disk full" (List.cons_ne_nil _ _) rfl⟩
